import Mathlib

/-
Verification of the docker-puller reconciliation engine.

The repository ships two variants of the program:
  - src/main.go: the simple variant (restart-based update, registry filter
    inside the per-container loop, fatal startup check on missing
    credentials, platform-fallback retry inside the pull status loop);
  - src/README.md lines 130-488: a richer embedded variant (recreate-based
    update, secondary candidate tag, anonymous pulls, timestamp
    comparison in pullImageAndCheckUpdate).
Definitions below are shallow embeddings of those sources. External
library calls (time.Parse, the Docker client, base64/JSON encoding) are
modelled as explicit parameters or oracles; everything written by the
repository itself is translated line by line.
-/

/-- Model of Go strings.HasPrefix restricted to character lists. -/
def startsWithL : List Char → List Char → Bool
  | _, [] => true
  | [], _ :: _ => false
  | a :: as, b :: bs => a == b && startsWithL as bs

/-- Helper for substring containment on character lists. -/
def hasSubL : List Char → List Char → Bool
  | [], sub => sub.isEmpty
  | a :: rest, sub => startsWithL (a :: rest) sub || hasSubL rest sub

/-- Model of Go strings.Contains: true when sub occurs inside s. -/
def strContains (s sub : String) : Bool :=
  hasSubL s.data sub.data

/-- Model of Go strings.HasPrefix on strings. -/
def strHasPre (s p : String) : Bool :=
  startsWithL s.data p.data

/-- Model of Go strings.Split(s, sep)[0]: the text before the first
occurrence of the separator character, the whole string when absent. -/
def splitFirst (s : String) (sep : Char) : String :=
  String.mk (s.data.takeWhile (fun c => c ≠ sep))

/-- Model of Go strings.TrimPrefix(s, sep) for a one-character prefix: it
removes at most one occurrence of the prefix. -/
def trimPre (s : String) (c : Char) : String :=
  match s.data with
  | [] => s
  | a :: rest => if a = c then String.mk rest else s

/-- Image inspection data used by the update check of the README variant:
the opaque content id and the creation timestamp string reported by
ImageInspectWithRaw. -/
structure ImgInspect where
  id : String
  created : String
  deriving DecidableEq

/-- Shallow embedding of pullImageAndCheckUpdate from the README variant
(src/README.md lines 439-483). The pull call, the inspection of the
pulled reference and the inspection of the current image id are supplied
as results (none models a failed call); time.Parse with RFC3339Nano is
modelled by the parse parameter, returning some timestamp on success and
none when unparseable. A failed inspection of the current image is only a
warning in the source, leaving the zero value whose Created field is the
empty string. The function answers Except.ok needsUpdate, or Except.error
when the pull or the inspection of the pulled image fails. -/
def pullImageAndCheckUpdate (parse : String → Option Int)
    (pullErr : Option String) (newImg : Option ImgInspect)
    (localImg : Option ImgInspect) (currentImgID : String) :
    Except String Bool :=
  match pullErr with
  | some e => Except.error ("error pulling image: " ++ e)
  | none =>
    match newImg with
    | none => Except.error "inspect pulled image"
    | some n =>
      let l := localImg.getD { id := "", created := "" }
      if n.id ≠ currentImgID then
        if l.created ≠ "" ∧ n.created ≠ "" then
          match parse l.created, parse n.created with
          | some localTime, some remoteTime =>
              Except.ok (decide (localTime < remoteTime))
          | _, _ => Except.ok false
        else Except.ok false
      else Except.ok false

/-- Sample parse function used by witnesses: a small timestamp table. -/
def sampleParse (s : String) : Option Int :=
  if s = "1" then some 1 else if s = "2" then some 2 else none

/-- C1: with differing content identity and both creation timestamps
present and parseable, the detector reports an update exactly when the
remote timestamp is strictly later than the local one; remote less than
or equal to local yields no update. -/
theorem c1_update_iff_strictly_newer (parse : String → Option Int)
    (n l : ImgInspect) (currentImgID : String) (localTime remoteTime : Int)
    (hid : n.id ≠ currentImgID)
    (hlc : l.created ≠ "") (hrc : n.created ≠ "")
    (hpl : parse l.created = some localTime)
    (hpr : parse n.created = some remoteTime) :
    pullImageAndCheckUpdate parse none (some n) (some l) currentImgID =
      Except.ok (decide (localTime < remoteTime)) := by
  simp only [pullImageAndCheckUpdate, Option.getD_some]
  rw [if_pos hid, if_pos ⟨hlc, hrc⟩, hpl, hpr]

/-- Witness for C1 at a concrete input: ids differ, timestamps 1 and 2. -/
theorem c1_witness :
    pullImageAndCheckUpdate sampleParse none
      (some { id := "sha256:b", created := "2" })
      (some { id := "sha256:a", created := "1" }) "sha256:a" =
      Except.ok (decide ((1 : Int) < 2)) :=
  c1_update_iff_strictly_newer sampleParse _ _ _ 1 2
    (by decide) (by decide) (by decide) (by decide) (by decide)

/-- C2: when the content identities agree, or either creation timestamp
is absent (empty, including the zero value left by a failed inspection of
the current image) or unparseable, the detector returns no update and no
error. -/
theorem c2_no_update_on_equal_or_missing (parse : String → Option Int)
    (n : ImgInspect) (localImg : Option ImgInspect) (currentImgID : String)
    (h : n.id = currentImgID ∨
      (localImg.getD { id := "", created := "" }).created = "" ∨
      n.created = "" ∨
      parse (localImg.getD { id := "", created := "" }).created = none ∨
      parse n.created = none) :
    pullImageAndCheckUpdate parse none (some n) localImg currentImgID =
      Except.ok false := by
  simp only [pullImageAndCheckUpdate]
  rcases h with h | h | h | h | h
  · rw [if_neg (by simp [h])]
  · by_cases hid : n.id ≠ currentImgID
    · rw [if_pos hid, if_neg (by simp [h])]
    · rw [if_neg hid]
  · by_cases hid : n.id ≠ currentImgID
    · rw [if_pos hid, if_neg (by simp [h])]
    · rw [if_neg hid]
  · by_cases hid : n.id ≠ currentImgID
    · rw [if_pos hid]
      by_cases hc : (localImg.getD { id := "", created := "" }).created ≠ "" ∧
          n.created ≠ ""
      · rw [if_pos hc, h]
      · rw [if_neg hc]
    · rw [if_neg hid]
  · by_cases hid : n.id ≠ currentImgID
    · rw [if_pos hid]
      by_cases hc : (localImg.getD { id := "", created := "" }).created ≠ "" ∧
          n.created ≠ ""
      · rw [if_pos hc, h]
        cases parse (localImg.getD { id := "", created := "" }).created <;> rfl
      · rw [if_neg hc]
    · rw [if_neg hid]

/-- Witness for C2 at a concrete input: equal content ids. -/
theorem c2_witness :
    pullImageAndCheckUpdate sampleParse none
      (some { id := "sha256:a", created := "2" })
      (some { id := "sha256:a", created := "1" }) "sha256:a" =
      Except.ok false :=
  c2_no_update_on_equal_or_missing sampleParse _ _ _ (Or.inl rfl)

/-- One decoded entry of the docker pull progress stream: the Status and
Error fields read by the json decoder in src/main.go lines 244-247. -/
structure PStatus where
  status : String
  error : String
  deriving DecidableEq

/-- Does a stream entry carry the platform-manifest-mismatch error that
triggers the fallback retry (src/main.go line 259)? The source first
tests Error for nonemptiness, then for the substring. -/
def isManifestErr (st : PStatus) : Bool :=
  st.error != "" && strContains st.error "no matching manifest"

/-- Does any entry of a stream carry the manifest-mismatch error? -/
def hasManifestErr (s : List PStatus) : Bool :=
  s.any isManifestErr

/-- Result of scanning one pull status stream in the V1 decoding loop:
done when the stream ends (decoder hits EOF), fallback when an entry
carries the manifest-mismatch error, in which case the rest of the
stream is abandoned because the source resets the decoder onto the new
response. Both carry the needsUpdate flag accumulated so far. -/
inductive ScanRes where
  | done (needsUpdate : Bool)
  | fallback (needsUpdate : Bool)
  deriving DecidableEq

/-- Scan of a single response stream, mirroring one pass of the loop in
src/main.go lines 243-278: a nonempty Error containing the mismatch text
requests the fallback pull; any other nonempty Error is only logged and
decoding continues; a Status containing "Downloaded newer image" sets
needsUpdate. -/
def scanStream : List PStatus → Bool → ScanRes
  | [], b => ScanRes.done b
  | st :: rest, b =>
    if st.error != "" then
      if strContains st.error "no matching manifest" then ScanRes.fallback b
      else scanStream rest b
    else if strContains st.status "Downloaded newer image" then
      scanStream rest true
    else scanStream rest b

/-- Outcome of the V1 pull status loop: ok carries the needsUpdate flag,
pullErr a failed fallback ImagePull call, diverged the exhaustion of the
fuel bound on fallback retries (the source loop has no such bound and
keeps re-pulling). Every outcome records how many fallback retries were
issued. -/
inductive LoopResult where
  | ok (needsUpdate : Bool) (retries : Nat)
  | pullErr (msg : String) (retries : Nat)
  | diverged (retries : Nat)
  deriving DecidableEq

/-- Shallow embedding of the decoding loop of pullImageAndCheckUpdate in
src/main.go lines 241-278. The docker client is the pull oracle mapping
a platform string to a status stream or a failed ImagePull call. On a
manifest-mismatch entry the source closes the current response, re-pulls
with the fixed platform linux/amd64 and restarts the decoder on the new
stream; fuel bounds how many fallback pulls the model follows. -/
def pullStatusLoop (pull : String → Except String (List PStatus)) :
    Nat → List PStatus → Bool → Nat → LoopResult
  | fuel, s, b, r =>
    match scanStream s b with
    | ScanRes.done b2 => LoopResult.ok b2 r
    | ScanRes.fallback b2 =>
      match fuel with
      | 0 => LoopResult.diverged r
      | Nat.succ f =>
        match pull "linux/amd64" with
        | Except.error e =>
            LoopResult.pullErr ("error pulling image (fallback): " ++ e) r
        | Except.ok s2 => pullStatusLoop pull f s2 b2 (r + 1)

/-- Shallow embedding of pullImageAndCheckUpdate from src/main.go lines
231-281: the initial pull with the requested platform, then the status
loop with needsUpdate false and zero retries performed. -/
def pullImageAndCheckUpdateV1 (pull : String → Except String (List PStatus))
    (platform : String) (fuel : Nat) : LoopResult :=
  match pull platform with
  | Except.error e => LoopResult.pullErr ("error pulling image: " ++ e) 0
  | Except.ok stream => pullStatusLoop pull fuel stream false 0

/-- Pull oracle whose streams always carry the mismatch error, for every
platform, including the fallback one. -/
def mismatchPull : String → Except String (List PStatus) :=
  fun _ =>
    Except.ok [{ status := "", error := "no matching manifest for linux/arm64" }]

/-- Pull oracle whose primary stream carries the mismatch error while the
fallback platform pulls cleanly. -/
def fallbackOkPull : String → Except String (List PStatus) :=
  fun p =>
    if p = "linux/amd64" then Except.ok []
    else Except.ok [{ status := "", error := "no matching manifest for linux/arm64" }]

/-- C3 counterexample: when the fallback stream itself reports the
manifest mismatch again, the loop does not stop after one retry: with
fuel for five fallback pulls it performs five retries and is still going
(the source loop never abandons the tag), refuting the claim that never
more than one retry is performed. -/
theorem c3_counterexample :
    pullImageAndCheckUpdateV1 mismatchPull "linux/arm64" 5 =
      LoopResult.diverged 5 := by
  decide

/-- Streams without a manifest-mismatch entry scan to done. -/
theorem scanStream_no_manifest (s : List PStatus) :
    ∀ b, hasManifestErr s = false → ∃ b2, scanStream s b = ScanRes.done b2 := by
  induction s with
  | nil => exact fun b _ => ⟨b, rfl⟩
  | cons st rest ih =>
    intro b h
    have h2 : isManifestErr st = false ∧ hasManifestErr rest = false := by
      simpa [hasManifestErr, List.any_cons, Bool.or_eq_false_iff] using h
    rcases h2 with ⟨h2a, h2b⟩
    cases he : (st.error != "") with
    | false =>
      cases hs : strContains st.status "Downloaded newer image" with
      | false =>
        simpa [scanStream, he, hs] using ih b h2b
      | true =>
        simpa [scanStream, he, hs] using ih true h2b
    | true =>
      have hm : strContains st.error "no matching manifest" = false := by
        simpa [isManifestErr, he] using h2a
      simpa [scanStream, he, hm] using ih b h2b

/-- Streams with a manifest-mismatch entry scan to a fallback request. -/
theorem scanStream_manifest (s : List PStatus) :
    ∀ b, hasManifestErr s = true → ∃ b2, scanStream s b = ScanRes.fallback b2 := by
  induction s with
  | nil => intro b h; simp [hasManifestErr] at h
  | cons st rest ih =>
    intro b h
    cases hme : isManifestErr st with
    | true =>
      have he : (st.error != "") = true := by
        have := hme
        simp only [isManifestErr, Bool.and_eq_true] at this
        exact this.1
      have hm : strContains st.error "no matching manifest" = true := by
        have := hme
        simp only [isManifestErr, Bool.and_eq_true] at this
        exact this.2
      exact ⟨b, by simp [scanStream, he, hm]⟩
    | false =>
      have h2b : hasManifestErr rest = true := by
        have := h
        simp only [hasManifestErr, List.any_cons, hme, Bool.false_or] at this
        exact this
      cases he : (st.error != "") with
      | false =>
        cases hs : strContains st.status "Downloaded newer image" with
        | false => simpa [scanStream, he, hs] using ih b h2b
        | true => simpa [scanStream, he, hs] using ih true h2b
      | true =>
        have hm : strContains st.error "no matching manifest" = false := by
          simpa [isManifestErr, he] using hme
        simpa [scanStream, he, hm] using ih b h2b

/-- A clean stream finishes the loop with the retry count unchanged. -/
theorem pullStatusLoop_clean (pull : String → Except String (List PStatus))
    (fuel : Nat) (s : List PStatus) (b : Bool) (r : Nat)
    (h : hasManifestErr s = false) :
    ∃ b2, pullStatusLoop pull fuel s b r = LoopResult.ok b2 r := by
  obtain ⟨b2, hs⟩ := scanStream_no_manifest s b h
  exact ⟨b2, by simp [pullStatusLoop, hs]⟩

/-- C3 amended: a manifest-mismatch entry in the status stream triggers a
fallback retry each time one is decoded; when the primary stream reports
the mismatch and the fallback stream is clean, exactly one retry against
linux/amd64 is performed and the check completes; only a fallback stream
that itself reports the mismatch causes further retries. -/
theorem c3_exactly_one_retry_when_fallback_clean
    (pull : String → Except String (List PStatus)) (platform : String)
    (fuel : Nat) (s1 s2 : List PStatus)
    (h1 : pull platform = Except.ok s1)
    (hm : hasManifestErr s1 = true)
    (h2 : pull "linux/amd64" = Except.ok s2)
    (hc : hasManifestErr s2 = false)
    (hf : 1 ≤ fuel) :
    ∃ b, pullImageAndCheckUpdateV1 pull platform fuel = LoopResult.ok b 1 := by
  obtain ⟨b2, hs⟩ := scanStream_manifest s1 false hm
  cases fuel with
  | zero => exact absurd hf (by decide)
  | succ f =>
    obtain ⟨b3, hres⟩ := pullStatusLoop_clean pull f s2 b2 1 hc
    exact ⟨b3, by simp [pullImageAndCheckUpdateV1, h1, pullStatusLoop, hs, h2, hres]⟩

/-- Witness for the amended C3 at a concrete input: mismatch on the
primary platform, clean fallback stream, fuel one. -/
theorem c3_witness :
    ∃ b, pullImageAndCheckUpdateV1 fallbackOkPull "linux/arm64" 1 =
      LoopResult.ok b 1 :=
  c3_exactly_one_retry_when_fallback_clean fallbackOkPull "linux/arm64" 1
    [{ status := "", error := "no matching manifest for linux/arm64" }] []
    rfl (by decide) rfl (by decide) (by decide)

/-- The ordered list of tags probed for one container (src/README.md
lines 319-322): latest always first, then the configured secondary
candidate tag when one is set. -/
def tagsToCheck (registryTag : String) : List String :=
  if registryTag != "" then ["latest", registryTag] else ["latest"]

/-- The reference actually pulled for a probed tag (src/README.md lines
326-332): when the current reference carries no colon the probed tag is
appended; otherwise the text before the first colon is combined with the
probed tag, discarding the tag the reference carried. -/
def imageWithTag (image tag : String) : String :=
  if !(strContains image ":") then image ++ ":" ++ tag
  else splitFirst image ':' ++ ":" ++ tag

/-- C4 counterexample: for a container whose current reference carries
the explicit tag v2, the tag plan still starts with latest and the first
probed reference replaces v2 by latest, so the explicit tag does not
stay primary. -/
theorem c4_counterexample :
    tagsToCheck "" = ["latest"] ∧
    imageWithTag "registry.example.com/app:v2" "latest" =
      "registry.example.com/app:latest" := by
  exact ⟨rfl, by decide⟩

/-- C4 amended: the primary probed tag is always latest, whatever tag
the current reference carries; a configured secondary candidate tag is
appended after it; and for a reference carrying a tag the probed
reference is rebuilt from the text before the first colon, replacing the
existing tag. -/
theorem c4_latest_always_primary (registryTag image tag : String) :
    (tagsToCheck registryTag).head? = some "latest" ∧
    ((registryTag != "") = true →
      tagsToCheck registryTag = ["latest", registryTag]) ∧
    (strContains image ":" = true →
      imageWithTag image tag = splitFirst image ':' ++ ":" ++ tag) := by
  refine ⟨?_, ?_, ?_⟩
  · unfold tagsToCheck
    split <;> rfl
  · intro h
    simp [tagsToCheck, h]
  · intro h
    simp [imageWithTag, h]

/-- Witness for the amended C4 at concrete inputs. -/
theorem c4_witness :
    (tagsToCheck "canary").head? = some "latest" ∧
    tagsToCheck "canary" = ["latest", "canary"] ∧
    imageWithTag "repo:v2" "latest" = splitFirst "repo:v2" ':' ++ ":" ++ "latest" :=
  ⟨(c4_latest_always_primary "canary" "repo:v2" "latest").1,
   (c4_latest_always_primary "canary" "repo:v2" "latest").2.1 (by decide),
   (c4_latest_always_primary "canary" "repo:v2" "latest").2.2 (by decide)⟩

/-- Container configuration snapshot fields relevant to recreation: the
image reference, the environment and the command of Config. -/
structure ContainerConfig where
  image : String
  env : List String
  cmd : List String
  deriving DecidableEq

/-- HostConfig snapshot: the mount bindings. -/
structure HostConfig where
  binds : List String
  deriving DecidableEq

/-- Result of ContainerInspect as used by recreateContainer: the Config
and HostConfig snapshots and the per-network endpoint settings of
NetworkSettings.Networks. -/
structure InspectData where
  config : ContainerConfig
  hostConfig : HostConfig
  networks : List (String × String)
  deriving DecidableEq

/-- Arguments of the ContainerCreate call. -/
structure CreateRequest where
  config : ContainerConfig
  hostConfig : HostConfig
  endpoints : List (String × String)
  name : String
  deriving DecidableEq

/-- Shallow embedding of the create call of recreateContainer
(src/README.md lines 420-427): the request replays the inspected Config
and HostConfig verbatim and attaches the inspected per-network endpoint
settings under the given name. No field is rewritten before the call; in
particular the Image field of Config is passed through unchanged. -/
def recreateCreateRequest (inspect : InspectData) (name : String) :
    CreateRequest :=
  { config := inspect.config
    hostConfig := inspect.hostConfig
    endpoints := inspect.networks
    name := name }

/-- Concrete snapshot used by the C8 counterexample. -/
def sampleInspect : InspectData :=
  { config := { image := "reg.example.com/app:latest", env := ["A=1"],
                cmd := ["run"] }
    hostConfig := { binds := ["/data:/data"] }
    networks := [("backend", "ep1")] }

/-- C8 counterexample: the recreated container is created with a
configuration identical to the old one, including the very same image
reference string, refuting the claim that the image reference differs
between the old and the new configuration; the new build is picked up
only because the unchanged reference now resolves to the freshly pulled
image. -/
theorem c8_counterexample :
    (recreateCreateRequest sampleInspect "app").config =
      sampleInspect.config ∧
    (recreateCreateRequest sampleInspect "app").config.image =
      "reg.example.com/app:latest" := by
  exact ⟨rfl, rfl⟩

/-- C8 amended: the create request of recreation replays the snapshot
verbatim: same name argument, environment, command, host configuration
with its mounts, network endpoints, and also the same image reference
string; no field of the configuration changes. -/
theorem c8_recreate_replays_snapshot (inspect : InspectData) (name : String) :
    (recreateCreateRequest inspect name).name = name ∧
    (recreateCreateRequest inspect name).config.env = inspect.config.env ∧
    (recreateCreateRequest inspect name).config.cmd = inspect.config.cmd ∧
    (recreateCreateRequest inspect name).hostConfig = inspect.hostConfig ∧
    (recreateCreateRequest inspect name).endpoints = inspect.networks ∧
    (recreateCreateRequest inspect name).config.image = inspect.config.image :=
  ⟨rfl, rfl, rfl, rfl, rfl, rfl⟩

/-- Outcome of the startup credential check. -/
inductive StartupResult where
  | fatal (msg : String)
  | proceed
  deriving DecidableEq

/-- Shallow embedding of the credential check at startup of src/main.go
lines 59-66: a missing username or password aborts the process. -/
def mainStartup (registryUser registryPass : String) : StartupResult :=
  if registryUser = "" ∨ registryPass = "" then
    StartupResult.fatal "REGISTRY_USERNAME and REGISTRY_PASSWORD must be set"
  else StartupResult.proceed

/-- Registry credential triple. -/
structure AuthConfig where
  username : String
  password : String
  serverAddress : String
  deriving DecidableEq

/-- Shallow embedding of the auth construction of the README variant
(src/README.md lines 283-295): with both credentials present the triple
is built, normalizing the docker hub server address; otherwise the zero
value is used. -/
def buildAuthConfig (user pass registryURL : String) : AuthConfig :=
  if user != "" && pass != "" then
    { username := user
      password := pass
      serverAddress :=
        if registryURL = "" ∨ registryURL = "docker.io" ∨
            registryURL = "https://docker.io" then
          "https://index.docker.io/v1/"
        else registryURL }
  else { username := "", password := "", serverAddress := "" }

/-- Shallow embedding of the auth attachment inside the README variant
of pullImageAndCheckUpdate (src/README.md lines 441-444): the
RegistryAuth payload (a base64 JSON encoding in the source, modelled by
the triple itself) is attached only when both username and password are
nonempty; otherwise the pull carries no auth payload. -/
def pullAuthPayload (auth : AuthConfig) : Option AuthConfig :=
  if auth.username != "" && auth.password != "" then some auth else none

/-- C9 counterexample: with the credential absent, the process of the
simple variant terminates fatally at startup instead of proceeding to
anonymous pulls. -/
theorem c9_counterexample :
    mainStartup "" "" =
      StartupResult.fatal "REGISTRY_USERNAME and REGISTRY_PASSWORD must be set" := by
  rfl

/-- C9 amended: the two variants differ. In src/main.go a missing
username or password terminates the process at startup; in the README
variant the very same absence yields an empty auth configuration and the
pull is performed without an auth payload, anonymously. -/
theorem c9_fatal_in_v1_anonymous_in_v2 (user pass registryURL : String)
    (h : user = "" ∨ pass = "") :
    mainStartup user pass =
      StartupResult.fatal "REGISTRY_USERNAME and REGISTRY_PASSWORD must be set" ∧
    pullAuthPayload (buildAuthConfig user pass registryURL) = none := by
  constructor
  · simp [mainStartup, h]
  · rcases h with h | h <;> simp [buildAuthConfig, pullAuthPayload, h]

/-- Witness for the amended C9 at a concrete input: username absent. -/
theorem c9_witness :
    mainStartup "" "secret" =
      StartupResult.fatal "REGISTRY_USERNAME and REGISTRY_PASSWORD must be set" ∧
    pullAuthPayload (buildAuthConfig "" "secret" "reg.example.com") = none :=
  c9_fatal_in_v1_anonymous_in_v2 "" "secret" "reg.example.com" (Or.inl rfl)

/-- Image inspection data used by the container loop of the README
variant: the repo tags (for digest resolution) and the platform pair. -/
structure ImageInfo where
  repoTags : List String
  os : String
  architecture : String
  deriving DecidableEq

/-- One entry of the container listing, together with the result of
ImageInspectWithRaw on its image id (none models a failed inspection);
name0 is the first entry of the Names field. -/
structure ContainerRec where
  id : String
  image : String
  imageID : String
  name0 : String
  inspect : Option ImageInfo
  deriving DecidableEq

/-- Digest resolution (src/README.md lines 264-270 and 304-310): a
reference of content-address form is replaced by the first repo tag of
the image inspection when the inspection succeeds and reports one. -/
def resolveImage (c : ContainerRec) : String :=
  if strHasPre c.image "sha256:" then
    match c.inspect with
    | some info =>
      match info.repoTags with
      | t :: _ => t
      | [] => c.image
    | none => c.image
  else c.image

/-- Eligibility test of the README variant (src/README.md line 272): the
resolved reference contains the registry URL or the username as a
substring. -/
def isEligible (registryURL user : String) (c : ContainerRec) : Bool :=
  strContains (resolveImage c) registryURL ||
    strContains (resolveImage c) user

/-- The eligible-container count computed before the main loop
(src/README.md lines 260-275). -/
def eligibleContainers (registryURL user : String)
    (containers : List ContainerRec) : Nat :=
  List.countP (isEligible registryURL user) containers

/-- Result of one pull-and-check call as seen by the container loop. -/
inductive PullRes where
  | err (msg : String)
  | updated
  | upToDate
  deriving DecidableEq

/-- Observable runtime requests issued by one tick, in program order. -/
inductive Event where
  | pull (name ref platform : String)
  | retagCall (src dst : String)
  | removeCall (ref : String)
  | recreateCall (name : String)
  | notifySuccess (name : String)
  | prune
  deriving DecidableEq

/-- Runtime oracle for one tick: the outcome of each pull-and-check call
(given the probed reference, the platform and the current image id), of
each ImageTag call, of each ImageRemove call and of each recreation.
The result of removeTag feeds only a log line in the source, so it does
not influence the event trace. -/
structure TickOracle where
  pull : String → String → String → PullRes
  retag : String → String → Bool
  removeTag : String → Bool
  recreate : String → Bool

/-- The bookkeeping block run when a pull reports an update
(src/README.md lines 343-359): only when the update came from the
configured secondary tag, the pulled reference is retagged as latest on
the repository part of the probed reference and, only when that retag
succeeded, the probed secondary reference is removed; failures of either
are only logged. -/
def onUpdateFound (o : TickOracle) (registryTag tag ref : String) :
    List Event :=
  if registryTag != "" && tag == registryTag then
    Event.retagCall ref (splitFirst ref ':' ++ ":latest") ::
      (if o.retag ref (splitFirst ref ':' ++ ":latest") then
        [Event.removeCall ref]
      else [])
  else []

/-- The tag probing loop (src/README.md lines 325-362): pull each probed
reference in order; a pull error or an up-to-date answer moves to the
next tag; the first update found runs the secondary-tag bookkeeping and
breaks. Returns the events in order and the needsUpdate flag. -/
def tagLoop (o : TickOracle) (registryTag image name platform imageID : String) :
    List String → List Event × Bool
  | [] => ([], false)
  | tag :: rest =>
    match o.pull (imageWithTag image tag) platform imageID with
    | PullRes.err _ =>
      let r := tagLoop o registryTag image name platform imageID rest
      (Event.pull name (imageWithTag image tag) platform :: r.1, r.2)
    | PullRes.upToDate =>
      let r := tagLoop o registryTag image name platform imageID rest
      (Event.pull name (imageWithTag image tag) platform :: r.1, r.2)
    | PullRes.updated =>
      (Event.pull name (imageWithTag image tag) platform ::
        onUpdateFound o registryTag tag (imageWithTag image tag), true)

/-- One iteration of the main container loop (src/README.md lines
300-392): digest resolution, image inspection for the platform (a failed
inspection skips the container), the tag probing loop, then on an update
the recreation; on successful recreation a success notification, the
updated counter, and, when cleanup is enabled, an image prune request
issued inside the loop. Returns the events and the increment of the
updated counter. -/
def containerStep (o : TickOracle) (registryTag : String)
    (cleanupFlag : Bool) (c : ContainerRec) : List Event × Nat :=
  match c.inspect with
  | none => ([], 0)
  | some info =>
    let r := tagLoop o registryTag (resolveImage c) (trimPre c.name0 '/')
      (info.os ++ "/" ++ info.architecture) c.imageID (tagsToCheck registryTag)
    if r.2 then
      if o.recreate c.id then
        (r.1 ++ Event.recreateCall (trimPre c.name0 '/') ::
          Event.notifySuccess (trimPre c.name0 '/') ::
          (if cleanupFlag then [Event.prune] else []), 1)
      else (r.1 ++ [Event.recreateCall (trimPre c.name0 '/')], 0)
    else (r.1, 0)

/-- The main container loop over the listing (src/README.md lines
300-392), accumulating events and the updated counter. -/
def runContainers (o : TickOracle) (registryTag : String)
    (cleanupFlag : Bool) : List ContainerRec → List Event × Nat
  | [] => ([], 0)
  | c :: rest =>
    let r1 := containerStep o registryTag cleanupFlag c
    let r2 := runContainers o registryTag cleanupFlag rest
    (r1.1 ++ r2.1, r1.2 + r2.2)

/-- Shallow embedding of one tick of checkContainers in the README
variant (src/README.md lines 247-403): when no container passes the
eligibility test the tick returns before any pull; otherwise every
listed container is processed by the loop, with no further per-container
registry filter. -/
def checkContainers (registryURL user registryTag : String)
    (cleanupFlag : Bool) (o : TickOracle)
    (containers : List ContainerRec) : List Event × Nat :=
  if eligibleContainers registryURL user containers = 0 then ([], 0)
  else runContainers o registryTag cleanupFlag containers

/-- Is an event the image prune request? -/
def isPrune : Event → Bool
  | Event.prune => true
  | _ => false

/-- Number of prune requests in a trace. -/
def pruneCount (evs : List Event) : Nat :=
  List.countP isPrune evs

/-- Prune counting distributes over concatenation of traces. -/
theorem pruneCount_append (l1 l2 : List Event) :
    pruneCount (l1 ++ l2) = pruneCount l1 + pruneCount l2 := by
  simp [pruneCount, List.countP_append]

/-- The secondary-tag bookkeeping never requests a prune. -/
theorem pruneCount_onUpdateFound (o : TickOracle) (rt tag ref : String) :
    pruneCount (onUpdateFound o rt tag ref) = 0 := by
  unfold onUpdateFound
  split
  · split <;> rfl
  · rfl

/-- The tag probing loop never requests a prune. -/
theorem pruneCount_tagLoop (o : TickOracle)
    (rt image name platform imageID : String) (tags : List String) :
    pruneCount (tagLoop o rt image name platform imageID tags).1 = 0 := by
  induction tags with
  | nil => rfl
  | cons tag rest ih =>
    unfold tagLoop
    cases o.pull (imageWithTag image tag) platform imageID with
    | err m =>
      simpa [pruneCount, List.countP_cons, isPrune] using ih
    | upToDate =>
      simpa [pruneCount, List.countP_cons, isPrune] using ih
    | updated =>
      simpa [pruneCount, List.countP_cons, isPrune] using
        pruneCount_onUpdateFound o rt tag (imageWithTag image tag)

/-- One container contributes one prune request exactly when cleanup is
enabled and its reconciliation succeeded. -/
theorem containerStep_prune (o : TickOracle) (rt : String)
    (cleanupFlag : Bool) (c : ContainerRec) :
    pruneCount (containerStep o rt cleanupFlag c).1 =
      if cleanupFlag then (containerStep o rt cleanupFlag c).2 else 0 := by
  unfold containerStep
  cases c.inspect with
  | none => cases cleanupFlag <;> rfl
  | some info =>
    simp only
    split
    · split
      · cases cleanupFlag <;>
          (rw [pruneCount_append, pruneCount_tagLoop];
            simp [pruneCount, List.countP_cons, isPrune])
      · rw [pruneCount_append, pruneCount_tagLoop]
        simp [pruneCount, List.countP_cons, isPrune]
    · simp [pruneCount_tagLoop]

/-- Over the whole loop, prune requests equal the updated counter when
cleanup is enabled, and zero otherwise. -/
theorem runContainers_prune (o : TickOracle) (rt : String)
    (cleanupFlag : Bool) (containers : List ContainerRec) :
    pruneCount (runContainers o rt cleanupFlag containers).1 =
      if cleanupFlag then (runContainers o rt cleanupFlag containers).2
      else 0 := by
  induction containers with
  | nil => cases cleanupFlag <;> rfl
  | cons c rest ih =>
    simp only [runContainers]
    rw [pruneCount_append, containerStep_prune, ih]
    cases cleanupFlag <;> simp

/-- C5 amended: in one tick the prune request is issued once per
successfully reconciled container, inside the loop, whenever cleanup is
enabled: the number of prune requests equals the number of containers
updated in the tick (zero with cleanup disabled), not at most one. -/
theorem c5_prune_once_per_updated_container
    (registryURL user registryTag : String) (cleanupFlag : Bool)
    (o : TickOracle) (containers : List ContainerRec) :
    pruneCount
        (checkContainers registryURL user registryTag cleanupFlag o
          containers).1 =
      if cleanupFlag then
        (checkContainers registryURL user registryTag cleanupFlag o
          containers).2
      else 0 := by
  unfold checkContainers
  split
  · cases cleanupFlag <;> rfl
  · exact runContainers_prune o registryTag cleanupFlag containers

/-- Oracle under which every pull reports an update and every runtime
call succeeds. -/
def alwaysUpdateOracle : TickOracle :=
  { pull := fun _ _ _ => PullRes.updated
    retag := fun _ _ => true
    removeTag := fun _ => true
    recreate := fun _ => true }

/-- Container fixture: an eligible container named app. -/
def contA : ContainerRec :=
  { id := "idA", image := "reg.example.com/app:latest",
    imageID := "sha256:a", name0 := "/app",
    inspect := some { repoTags := [], os := "linux", architecture := "amd64" } }

/-- Container fixture: an eligible container named db. -/
def contB : ContainerRec :=
  { id := "idB", image := "reg.example.com/db:latest",
    imageID := "sha256:b", name0 := "/db",
    inspect := some { repoTags := [], os := "linux", architecture := "amd64" } }

/-- C5 counterexample: one tick with cleanup enabled in which two
containers are successfully reconciled requests the prune twice, once
per updated container, refuting at most one prune request per tick. -/
theorem c5_counterexample :
    (checkContainers "reg.example.com" "alice" "" true alwaysUpdateOracle
        [contA, contB]).2 = 2 ∧
    pruneCount
        (checkContainers "reg.example.com" "alice" "" true alwaysUpdateOracle
          [contA, contB]).1 = 2 := by
  decide

/-- The probing loop always issues the pull of its first tag as its
first event, whatever the pull outcome. -/
theorem tagLoop_head_pull (o : TickOracle)
    (rt image name platform imageID tag : String) (tags : List String) :
    ∃ t, (tagLoop o rt image name platform imageID (tag :: tags)).1 =
      Event.pull name (imageWithTag image tag) platform :: t := by
  unfold tagLoop
  cases o.pull (imageWithTag image tag) platform imageID <;> exact ⟨_, rfl⟩

/-- A container whose image inspection succeeds always has the pull of
the latest tag as the first event of its loop iteration. -/
theorem containerStep_head_pull (o : TickOracle) (rt : String)
    (cleanupFlag : Bool) (c : ContainerRec) (info : ImageInfo)
    (hi : c.inspect = some info) :
    ∃ t, (containerStep o rt cleanupFlag c).1 =
      Event.pull (trimPre c.name0 '/') (imageWithTag (resolveImage c) "latest")
        (info.os ++ "/" ++ info.architecture) :: t := by
  obtain ⟨tags, htags⟩ : ∃ tags, tagsToCheck rt = "latest" :: tags := by
    unfold tagsToCheck
    split <;> exact ⟨_, rfl⟩
  obtain ⟨t, ht⟩ := tagLoop_head_pull o rt (resolveImage c) (trimPre c.name0 '/')
    (info.os ++ "/" ++ info.architecture) c.imageID "latest" tags
  simp only [containerStep, hi, htags]
  split
  · split
    · exact ⟨_, by rw [ht]; rfl⟩
    · exact ⟨_, by rw [ht]; rfl⟩
  · exact ⟨_, ht⟩

/-- Membership version over the whole loop: every listed container with
a successful image inspection is pulled. -/
theorem runContainers_pull_mem (o : TickOracle) (rt : String)
    (cleanupFlag : Bool) (containers : List ContainerRec)
    (c : ContainerRec) (info : ImageInfo)
    (hc : c ∈ containers) (hi : c.inspect = some info) :
    Event.pull (trimPre c.name0 '/') (imageWithTag (resolveImage c) "latest")
        (info.os ++ "/" ++ info.architecture) ∈
      (runContainers o rt cleanupFlag containers).1 := by
  induction containers with
  | nil => cases hc
  | cons d rest ih =>
    simp only [runContainers]
    rcases List.mem_cons.mp hc with h | h
    · subst h
      obtain ⟨t, ht⟩ := containerStep_head_pull o rt cleanupFlag c info hi
      exact List.mem_append_left _ (ht ▸ List.mem_cons_self _ _)
    · exact List.mem_append_right _ (ih h)

/-- One eligible member rules the early exit out. -/
theorem eligibleContainers_pos (registryURL user : String)
    (containers : List ContainerRec) (c : ContainerRec)
    (hc : c ∈ containers) (he : isEligible registryURL user c = true) :
    ¬eligibleContainers registryURL user containers = 0 := by
  unfold eligibleContainers
  intro h0
  rw [List.countP_eq_zero] at h0
  exact absurd he (by simpa using h0 c hc)

/-- As soon as one container passes the eligibility test, a pull is
issued for every listed container with a successful image inspection,
matching or not. -/
theorem checkContainers_pull_mem (registryURL user registryTag : String)
    (cleanupFlag : Bool) (o : TickOracle) (containers : List ContainerRec)
    (c0 c : ContainerRec) (info : ImageInfo)
    (h0 : c0 ∈ containers) (he : isEligible registryURL user c0 = true)
    (hc : c ∈ containers) (hi : c.inspect = some info) :
    Event.pull (trimPre c.name0 '/') (imageWithTag (resolveImage c) "latest")
        (info.os ++ "/" ++ info.architecture) ∈
      (checkContainers registryURL user registryTag cleanupFlag o
        containers).1 := by
  unfold checkContainers
  rw [if_neg (eligibleContainers_pos registryURL user containers c0 h0 he)]
  exact runContainers_pull_mem o registryTag cleanupFlag containers c info hc hi

/-- Oracle for the two-container scenario: pulls of references from the
configured registry report an update, all other pulls are up to date;
every runtime call succeeds. -/
def scenarioOracle : TickOracle :=
  { pull := fun ref _ _ =>
      if strContains ref "reg.example.com" then PullRes.updated
      else PullRes.upToDate
    retag := fun _ _ => true
    removeTag := fun _ => true
    recreate := fun _ => true }

/-- Container fixture: a container from a foreign registry, matching
neither the registry host nor the username. -/
def contC : ContainerRec :=
  { id := "idC", image := "other.io/thing:1.0", imageID := "sha256:c",
    name0 := "/thing",
    inspect := some { repoTags := [], os := "linux", architecture := "amd64" } }

/-- C6 counterexample: in the two-container scenario exactly one
reconciliation occurs, yet a pull is still issued for the non-matching
container, refuting that no pull is issued for it: the per-container
registry skip of the simple variant is absent from the README variant,
whose filter only feeds the early-exit count. -/
theorem c6_counterexample :
    (checkContainers "reg.example.com" "alice" "" false scenarioOracle
        [contA, contC]).2 = 1 ∧
    Event.pull "thing" "other.io/thing:latest" "linux/amd64" ∈
      (checkContainers "reg.example.com" "alice" "" false scenarioOracle
        [contA, contC]).1 := by
  decide

/-- C6 amended: non-matching containers affect only the eligibility
count: when at least one listed container matches the registry host or
username substring, the tick processes every listed container, issuing a
pull for each one whose image inspection succeeds, matching or not. -/
theorem c6_nonmatching_container_still_pulled
    (registryURL user registryTag : String) (cleanupFlag : Bool)
    (o : TickOracle) (containers : List ContainerRec)
    (c0 c : ContainerRec) (info : ImageInfo)
    (h0 : c0 ∈ containers) (he : isEligible registryURL user c0 = true)
    (hc : c ∈ containers) (hi : c.inspect = some info) :
    Event.pull (trimPre c.name0 '/') (imageWithTag (resolveImage c) "latest")
        (info.os ++ "/" ++ info.architecture) ∈
      (checkContainers registryURL user registryTag cleanupFlag o
        containers).1 :=
  checkContainers_pull_mem registryURL user registryTag cleanupFlag o
    containers c0 c info h0 he hc hi

/-- Witness for the amended C6: the foreign container of the scenario is
pulled although it matches neither substring. -/
theorem c6_witness :
    Event.pull (trimPre contC.name0 '/')
        (imageWithTag (resolveImage contC) "latest")
        ("linux" ++ "/" ++ "amd64") ∈
      (checkContainers "reg.example.com" "alice" "" false scenarioOracle
        [contA, contC]).1 :=
  c6_nonmatching_container_still_pulled "reg.example.com" "alice" "" false
    scenarioOracle [contA, contC] contA contC
    { repoTags := [], os := "linux", architecture := "amd64" }
    (by decide) (by decide) (by decide) rfl

/-- The empty pattern is contained in every string, as with Go
strings.Contains on an empty substring. -/
theorem strContains_empty (s : String) : strContains s "" = true := by
  unfold strContains
  cases s.data with
  | nil => rfl
  | cons a rest => simp [hasSubL, startsWithL]

/-- With the empty registry URL every container is eligible. -/
theorem isEligible_empty_registry (user : String) (c : ContainerRec) :
    isEligible "" user c = true := by
  simp [isEligible, strContains_empty]

/-- With the empty registry URL the eligible count is the full listing. -/
theorem eligibleContainers_empty_registry (user : String)
    (containers : List ContainerRec) :
    eligibleContainers "" user containers = containers.length := by
  unfold eligibleContainers
  induction containers with
  | nil => rfl
  | cons c rest ih =>
    simp [List.countP_cons, isEligible_empty_registry, ih]

/-- C10: with the empty registry URL the substring eligibility test
matches every image reference, so every listed container is counted
eligible and, the early exit being impossible, a pull is issued for
every container whose image inspection succeeds, regardless of which
registry its image comes from. -/
theorem c10_empty_registry_checks_all (user registryTag : String)
    (cleanupFlag : Bool) (o : TickOracle) (containers : List ContainerRec) :
    eligibleContainers "" user containers = containers.length ∧
    ∀ c ∈ containers, ∀ info, c.inspect = some info →
      Event.pull (trimPre c.name0 '/') (imageWithTag (resolveImage c) "latest")
          (info.os ++ "/" ++ info.architecture) ∈
        (checkContainers "" user registryTag cleanupFlag o containers).1 := by
  refine ⟨eligibleContainers_empty_registry user containers, ?_⟩
  intro c hc info hi
  exact checkContainers_pull_mem "" user registryTag cleanupFlag o containers
    c c info hc (isEligible_empty_registry user c) hc hi

/-- Witness for C10: with the empty registry URL both fixtures count as
eligible and the foreign container is pulled. -/
theorem c10_witness :
    eligibleContainers "" "alice" [contA, contC] = [contA, contC].length ∧
    Event.pull (trimPre contC.name0 '/')
        (imageWithTag (resolveImage contC) "latest")
        ("linux" ++ "/" ++ "amd64") ∈
      (checkContainers "" "alice" "" false scenarioOracle [contA, contC]).1 :=
  ⟨(c10_empty_registry_checks_all "alice" "" false scenarioOracle
      [contA, contC]).1,
   (c10_empty_registry_checks_all "alice" "" false scenarioOracle
      [contA, contC]).2 contC (by decide)
     { repoTags := [], os := "linux", architecture := "amd64" } rfl⟩

/-- C7: when the primary tag finds no update and the configured
secondary tag does, the loop first issues the retag of the pulled
secondary reference as latest on its repository part, then, exactly when
the retag succeeded, the removal of the secondary reference; whatever
the outcomes of the retag and of the removal, the container is still
updated: the recreate call follows unconditionally and the updated
counter depends only on the recreation result. -/
theorem c7_secondary_tag_bookkeeping (o : TickOracle) (rt : String)
    (cleanupFlag : Bool) (c : ContainerRec) (info : ImageInfo)
    (hi : c.inspect = some info) (hrt : (rt != "") = true)
    (h1 : o.pull (imageWithTag (resolveImage c) "latest")
        (info.os ++ "/" ++ info.architecture) c.imageID = PullRes.upToDate)
    (h2 : o.pull (imageWithTag (resolveImage c) rt)
        (info.os ++ "/" ++ info.architecture) c.imageID = PullRes.updated) :
    containerStep o rt cleanupFlag c =
      (Event.pull (trimPre c.name0 '/') (imageWithTag (resolveImage c) "latest")
          (info.os ++ "/" ++ info.architecture) ::
        Event.pull (trimPre c.name0 '/') (imageWithTag (resolveImage c) rt)
          (info.os ++ "/" ++ info.architecture) ::
        Event.retagCall (imageWithTag (resolveImage c) rt)
          (splitFirst (imageWithTag (resolveImage c) rt) ':' ++ ":latest") ::
        ((if o.retag (imageWithTag (resolveImage c) rt)
              (splitFirst (imageWithTag (resolveImage c) rt) ':' ++ ":latest")
            then [Event.removeCall (imageWithTag (resolveImage c) rt)]
            else []) ++
          Event.recreateCall (trimPre c.name0 '/') ::
          (if o.recreate c.id then
            Event.notifySuccess (trimPre c.name0 '/') ::
              (if cleanupFlag then [Event.prune] else [])
          else [])),
        if o.recreate c.id then 1 else 0) := by
  have htags : tagsToCheck rt = ["latest", rt] := by
    simp [tagsToCheck, hrt]
  simp only [containerStep, hi, htags, tagLoop, h1, h2, onUpdateFound, hrt,
    beq_self_eq_true, Bool.and_self, if_true]
  cases hr : o.recreate c.id <;>
    cases hg : o.retag (imageWithTag (resolveImage c) rt)
      (splitFirst (imageWithTag (resolveImage c) rt) ':' ++ ":latest") <;>
    simp [hr, hg]

/-- Oracle for the secondary-tag scenario: only references carrying the
canary tag report an update; the retag fails (the failure must stay a
warning), removal and recreation succeed. -/
def canaryOracle : TickOracle :=
  { pull := fun ref _ _ =>
      if strContains ref ":canary" then PullRes.updated else PullRes.upToDate
    retag := fun _ _ => false
    removeTag := fun _ => true
    recreate := fun _ => true }

/-- Witness for C7 at a concrete input: the canary tag carries the
update and the retag fails, yet the container is still recreated and
counted as updated. -/
theorem c7_witness :
    containerStep canaryOracle "canary" false contA =
      ([Event.pull "app" "reg.example.com/app:latest" "linux/amd64",
        Event.pull "app" "reg.example.com/app:canary" "linux/amd64",
        Event.retagCall "reg.example.com/app:canary" "reg.example.com/app:latest",
        Event.recreateCall "app", Event.notifySuccess "app"], 1) :=
  c7_secondary_tag_bookkeeping canaryOracle "canary" false contA
    { repoTags := [], os := "linux", architecture := "amd64" }
    rfl (by decide) (by decide) (by decide)

/-- Witness for the amended C5 at a concrete input: the two-container
tick with cleanup enabled. -/
theorem c5_witness :
    pruneCount
        (checkContainers "reg.example.com" "alice" "" true alwaysUpdateOracle
          [contA, contB]).1 =
      if true then
        (checkContainers "reg.example.com" "alice" "" true alwaysUpdateOracle
          [contA, contB]).2
      else 0 :=
  c5_prune_once_per_updated_container "reg.example.com" "alice" "" true
    alwaysUpdateOracle [contA, contB]

/-- Witness for the amended C8 at a concrete input. -/
theorem c8_witness :
    (recreateCreateRequest sampleInspect "app").name = "app" ∧
    (recreateCreateRequest sampleInspect "app").config.env =
      sampleInspect.config.env ∧
    (recreateCreateRequest sampleInspect "app").config.cmd =
      sampleInspect.config.cmd ∧
    (recreateCreateRequest sampleInspect "app").hostConfig =
      sampleInspect.hostConfig ∧
    (recreateCreateRequest sampleInspect "app").endpoints =
      sampleInspect.networks ∧
    (recreateCreateRequest sampleInspect "app").config.image =
      sampleInspect.config.image :=
  c8_recreate_replays_snapshot sampleInspect "app"
